import Mathlib

/-!
Verification development for the TriAI repository's MCP tool dispatch and
database-abstraction layer.

The Python source is shallowly embedded: pure functions become Lean
functions, raised exceptions become `Except.error`, the in-memory mock
database becomes an explicit state record that operations transform, and
Python `str` primitives (`lower`, `strip`, `in`, `startswith`, `count`,
`replace`, `split`) are modelled on `String.data` (`List Char`).
Timestamps (`datetime.now()`) and random values are nondeterministic
inputs of the source, so they are passed in as explicit parameters.
-/

set_option maxRecDepth 8000

namespace TriAI

/-! ### Python string primitives -/

/-- Whitespace as Python's `str.strip` removes it (ASCII part: space, tab,
newline, carriage return, vertical tab, form feed). -/
def isPyWs (c : Char) : Bool :=
  c = ' ' || c = '\t' || c = '\n' || c = '\r' || c = '\x0b' || c = '\x0c'

/-- Python `str.lower` (ASCII letters; the source only compares ASCII SQL
text). -/
def pyLower (s : String) : String :=
  String.mk (s.data.map Char.toLower)

/-- Python `str.strip()`: drop leading and trailing whitespace. -/
def pyStrip (s : String) : String :=
  String.mk ((s.data.dropWhile isPyWs).rdropWhile isPyWs)

/-- Core of Python's substring test `sub in s`. -/
def containsSub : List Char → List Char → Bool
  | s, sub =>
    if sub.isPrefixOf s then true
    else
      match s with
      | [] => false
      | _ :: t => containsSub t sub

/-- Python `sub in s` (substring containment). -/
def pyContains (s sub : String) : Bool :=
  containsSub s.data sub.data

/-- Python `s.startswith(p)`. -/
def pyStartsWith (s p : String) : Bool :=
  p.data.isPrefixOf s.data

/-- Python `s.count(c)` for a single-character needle (the source only
counts `"("` and `")"`). -/
def pyCountChar (s : String) (c : Char) : Nat :=
  s.data.count c

/-- Python `s.rstrip(";")`: drop trailing `';'` characters. -/
def pyRstripSemi (s : String) : String :=
  String.mk (s.data.rdropWhile (fun c => c = ';'))

/-- Fuelled core of Python `s.replace(pat, repl)`: replace every
non-overlapping occurrence, scanning left to right. The fuel is the length
of the scanned list; every use in the source has a non-empty pattern, for
which the fuel suffices. -/
def replaceAllAux (pat repl : List Char) : Nat → List Char → List Char
  | 0, s => s
  | fuel + 1, s =>
    if pat ≠ [] ∧ pat.isPrefixOf s then
      repl ++ replaceAllAux pat repl fuel (s.drop pat.length)
    else
      match s with
      | [] => []
      | c :: t => c :: replaceAllAux pat repl fuel t

/-- Python `s.replace(pat, repl)` for a non-empty `pat`. -/
def pyReplace (s pat repl : String) : String :=
  String.mk (replaceAllAux pat.data repl.data s.data.length s.data)

/-- Python `str.split()` with no argument: split on whitespace runs,
discarding empty fields. -/
def pySplitWsAux : List Char → List Char → List String
  | acc, [] => if acc = [] then [] else [String.mk acc.reverse]
  | acc, c :: t =>
    if isPyWs c then
      if acc = [] then pySplitWsAux [] t
      else String.mk acc.reverse :: pySplitWsAux [] t
    else
      pySplitWsAux (c :: acc) t

/-- Python `s.split()` (whitespace-separated tokens). -/
def pySplitWs (s : String) : List String :=
  pySplitWsAux [] s.data

/-! ### JSON-like values: the shape of tool results and database rows -/

/-- Dynamic values as the Python source passes them around: `None`,
booleans, integers, strings, lists and dicts. Timestamps are carried as
opaque `str` values. -/
inductive Val : Type where
  | null : Val
  | bool (b : Bool) : Val
  | num (n : Int) : Val
  | str (s : String) : Val
  | arr (xs : List Val) : Val
  | obj (fields : List (String × Val)) : Val

/-- A database row: a Python dict from column name to value, modelled as an
association list in insertion order with unique keys. -/
abbrev Row : Type := List (String × Val)

/-- First-match lookup in an association list (Python dict indexing / `get`
on a dict whose keys are unique). -/
def lookupStr {α : Type} : List (String × α) → String → Option α
  | [], _ => none
  | (k, v) :: rest, key => if k = key then some v else lookupStr rest key

/-- Python `d[k] = v` on a dict modelled as an association list: overwrite
in place if the key is present, else append. -/
def dictSet {α : Type} : List (String × α) → String → α → List (String × α)
  | [], k, v => [(k, v)]
  | (k', v') :: rest, k, v =>
    if k' = k then (k', v) :: rest else (k', v') :: dictSet rest k v

/-- Python `str(value)` for the scalar `Val`s the source interpolates into
SQL text. -/
def pyStr : Val → String
  | .null => "None"
  | .bool true => "True"
  | .bool false => "False"
  | .num n => toString n
  | .str s => s
  | .arr _ => "[...]"
  | .obj _ => "{...}"

/-- Field access on an `obj` value. -/
def getField (v : Val) (k : String) : Option Val :=
  match v with
  | .obj fields => lookupStr fields k
  | _ => none

/-! ### DataLink `sql_escape`, `log` and `read_log` (three variants)

The `MockDataLink`, `PostgreSQLDataLink` and deployment `DataLink` classes
implement the same escaping and the same bounded log; only the log-entry
prefix differs (`[MOCK ts]` versus `[ts]`). `data` is `None` or an
already-stringified scalar, modelled as `Option String`. -/

namespace MockDataLink

/-- Translation of `MockDataLink.sql_escape` (src/mock_datalink.py): `None`
maps to the literal `NULL`; otherwise embedded single quotes are doubled and
the result is quote-wrapped unless `quote` is false. -/
def sql_escape (data : Option String) (quote : Bool) : String :=
  match data with
  | none => "NULL"
  | some str_data =>
    let escaped := String.mk (str_data.data.foldr
      (fun c acc => if c = '\'' then '\'' :: '\'' :: acc else c :: acc) [])
    if quote then "'" ++ escaped ++ "'" else escaped

/-- Translation of `MockDataLink.log` (src/mock_datalink.py): append a
timestamped entry, then keep only the last 1000 entries. The timestamp is
an input (the source reads the wall clock). -/
def log (log_entries : List String) (timestamp message : String) : List String :=
  let log_entry := "[MOCK " ++ timestamp ++ "] " ++ message
  let entries := log_entries ++ [log_entry]
  if entries.length > 1000 then entries.drop (entries.length - 1000) else entries

/-- Translation of `MockDataLink.read_log` (src/mock_datalink.py):
`log_entries[-num:]` when `num > 0`, else the empty list. -/
def read_log (log_entries : List String) (num : Int) : List String :=
  if num > 0 then log_entries.drop (log_entries.length - num.toNat) else []

end MockDataLink

namespace PostgreSQLDataLink

/-- Translation of `PostgreSQLDataLink.sql_escape` (src/pg_datalink.py);
same logic as the mock variant. -/
def sql_escape (data : Option String) (quote : Bool) : String :=
  match data with
  | none => "NULL"
  | some str_data =>
    let escaped := String.mk (str_data.data.foldr
      (fun c acc => if c = '\'' then '\'' :: '\'' :: acc else c :: acc) [])
    if quote then "'" ++ escaped ++ "'" else escaped

/-- Translation of `PostgreSQLDataLink.log` (src/pg_datalink.py): like the
mock variant but the entry is `[timestamp] message`. -/
def log (log_entries : List String) (timestamp message : String) : List String :=
  let log_entry := "[" ++ timestamp ++ "] " ++ message
  let entries := log_entries ++ [log_entry]
  if entries.length > 1000 then entries.drop (entries.length - 1000) else entries

/-- Translation of `PostgreSQLDataLink.read_log` (src/pg_datalink.py). -/
def read_log (log_entries : List String) (num : Int) : List String :=
  if num > 0 then log_entries.drop (log_entries.length - num.toNat) else []

end PostgreSQLDataLink

namespace DataLink

/-- Translation of `DataLink.sql_escape`
(src/triai_deployment_20250812_102707/datalink.py); same logic as the other
two variants. -/
def sql_escape (data : Option String) (quote : Bool) : String :=
  match data with
  | none => "NULL"
  | some str_data =>
    let escaped := String.mk (str_data.data.foldr
      (fun c acc => if c = '\'' then '\'' :: '\'' :: acc else c :: acc) [])
    if quote then "'" ++ escaped ++ "'" else escaped

end DataLink

/-- The claim C7 scenario equations hold in every embedded DataLink variant:
`escape(None) = NULL` unquoted, `escape("O'Brien") = 'O''Brien'`,
`escape("x", quote=False) = x` bare, `escape("it's", quote=False) = it''s`. -/
theorem sql_escape_spec_all_variants :
    MockDataLink.sql_escape none true = "NULL" ∧
    MockDataLink.sql_escape (some "O'Brien") true = "'O''Brien'" ∧
    MockDataLink.sql_escape (some "x") false = "x" ∧
    MockDataLink.sql_escape (some "it's") false = "it''s" ∧
    PostgreSQLDataLink.sql_escape none true = "NULL" ∧
    PostgreSQLDataLink.sql_escape (some "O'Brien") true = "'O''Brien'" ∧
    PostgreSQLDataLink.sql_escape (some "x") false = "x" ∧
    PostgreSQLDataLink.sql_escape (some "it's") false = "it''s" ∧
    DataLink.sql_escape none true = "NULL" ∧
    DataLink.sql_escape (some "O'Brien") true = "'O''Brien'" ∧
    DataLink.sql_escape (some "x") false = "x" ∧
    DataLink.sql_escape (some "it's") false = "it''s" := by
  refine ⟨rfl, ?_, rfl, ?_, rfl, ?_, rfl, ?_, rfl, ?_, rfl, ?_⟩ <;> rfl

/-! ### The bounded log ring buffer (claim C9) -/

/-- Every call sequence on a fresh mock instance: fold `log` over
timestamped messages starting from the empty buffer. -/
def logAllMock (inputs : List (String × String)) : List String :=
  inputs.foldl (fun es tm => MockDataLink.log es tm.1 tm.2) []

/-- Every call sequence on a fresh PostgreSQL instance. -/
def logAllPG (inputs : List (String × String)) : List String :=
  inputs.foldl (fun es tm => PostgreSQLDataLink.log es tm.1 tm.2) []

/-- Folding the append-then-truncate step keeps exactly the last 1000
formatted entries (all of them while fewer than 1000 exist). -/
theorem foldl_bounded_log (fmt : String × String → String) :
    ∀ (inputs : List (String × String)) (es : List String), es.length ≤ 1000 →
    inputs.foldl
      (fun es tm =>
        let entries := es ++ [fmt tm]
        if entries.length > 1000 then entries.drop (entries.length - 1000) else entries)
      es
      = (es ++ inputs.map fmt).drop ((es ++ inputs.map fmt).length - 1000) := by
  intro inputs
  induction inputs with
  | nil =>
    intro es h
    simp only [List.foldl_nil, List.map_nil, List.append_nil]
    have : es.length - 1000 = 0 := by omega
    rw [this, List.drop_zero]
  | cons tm rest ih =>
    intro es h
    simp only [List.foldl_cons, List.map_cons]
    by_cases hlen : (es ++ [fmt tm]).length > 1000
    · have hlen' : es.length = 1000 := by
        simp only [List.length_append, List.length_singleton] at hlen; omega
      have hdrop : ((es ++ [fmt tm]).drop ((es ++ [fmt tm]).length - 1000)).length ≤ 1000 := by
        simp only [List.length_drop]; omega
      rw [if_pos hlen, ih _ hdrop]
      have h1 : (1 : Nat) ≤ (es ++ [fmt tm]).length := by
        simp only [List.length_append, List.length_singleton]; omega
      have hd : (es ++ [fmt tm]).length - 1000 = 1 := by
        simp only [List.length_append, List.length_singleton]; omega
      rw [hd]
      rw [show (es ++ [fmt tm]).drop 1 ++ rest.map fmt
            = ((es ++ [fmt tm]) ++ rest.map fmt).drop 1 from
          (List.drop_append_of_le_length h1).symm]
      rw [List.drop_drop, List.append_cons es (fmt tm) (rest.map fmt)]
      congr 1
      simp only [List.length_drop, List.length_append, List.length_singleton,
        List.length_map]
      omega
    · rw [if_neg hlen, ih]
      · rw [List.append_assoc]
        rfl
      · simp only [List.length_append, List.length_singleton] at hlen ⊢; omega

/-- Claim C9: after every sequence of `log` calls the buffer holds at most
1000 entries, and it is a suffix of the list of all formatted entries of
length `min (number of calls) 1000` — the most recently appended ones — in
both the mock and the PostgreSQL variant; `read_log num` with `num > 0`
returns exactly the last `num` entries (all of them when fewer exist), and
returns `[]` when `num ≤ 0`. -/
theorem log_ring_buffer_spec (inputs : List (String × String)) (num : Int) :
    (logAllMock inputs).length = min inputs.length 1000
    ∧ logAllMock inputs <:+ inputs.map (fun tm => "[MOCK " ++ tm.1 ++ "] " ++ tm.2)
    ∧ (logAllPG inputs).length = min inputs.length 1000
    ∧ logAllPG inputs <:+ inputs.map (fun tm => "[" ++ tm.1 ++ "] " ++ tm.2)
    ∧ (0 < num →
        MockDataLink.read_log (logAllMock inputs) num <:+ logAllMock inputs
        ∧ (MockDataLink.read_log (logAllMock inputs) num).length
            = min num.toNat (logAllMock inputs).length)
    ∧ (num ≤ 0 → MockDataLink.read_log (logAllMock inputs) num = []) := by
  have hm : logAllMock inputs
      = (inputs.map fun tm => "[MOCK " ++ tm.1 ++ "] " ++ tm.2).drop
          ((inputs.map fun tm => "[MOCK " ++ tm.1 ++ "] " ++ tm.2).length - 1000) := by
    have := foldl_bounded_log (fun tm => "[MOCK " ++ tm.1 ++ "] " ++ tm.2) inputs []
      (by simp)
    simpa [logAllMock, MockDataLink.log] using this
  have hp : logAllPG inputs
      = (inputs.map fun tm => "[" ++ tm.1 ++ "] " ++ tm.2).drop
          ((inputs.map fun tm => "[" ++ tm.1 ++ "] " ++ tm.2).length - 1000) := by
    have := foldl_bounded_log (fun tm => "[" ++ tm.1 ++ "] " ++ tm.2) inputs []
      (by simp)
    simpa [logAllPG, PostgreSQLDataLink.log] using this
  refine ⟨?_, ?_, ?_, ?_, ?_, ?_⟩
  · rw [hm]; simp only [List.length_drop, List.length_map]; omega
  · rw [hm]; exact List.drop_suffix _ _
  · rw [hp]; simp only [List.length_drop, List.length_map]; omega
  · rw [hp]; exact List.drop_suffix _ _
  · intro hnum
    constructor
    · rw [MockDataLink.read_log, if_pos hnum]
      exact List.drop_suffix _ _
    · rw [MockDataLink.read_log, if_pos hnum]
      simp only [List.length_drop]
      omega
  · intro hnum
    rw [MockDataLink.read_log, if_neg (by omega)]

/-- Witness for claim C9: the theorem applied at a one-entry call sequence,
with both `read_log` hypotheses discharged at `num = 1` and `num = 0`. -/
theorem log_ring_buffer_spec_witness :
    (logAllMock [("2025-01-01", "hello")]).length = min 1 1000
    ∧ MockDataLink.read_log (logAllMock [("2025-01-01", "hello")]) 1
        <:+ logAllMock [("2025-01-01", "hello")]
    ∧ MockDataLink.read_log (logAllMock [("2025-01-01", "hello")]) 0 = [] :=
  ⟨(log_ring_buffer_spec [("2025-01-01", "hello")] 1).1,
   ((log_ring_buffer_spec [("2025-01-01", "hello")] 1).2.2.2.2.1 (by decide)).1,
   (log_ring_buffer_spec [("2025-01-01", "hello")] 0).2.2.2.2.2 (by decide)⟩

/-! ### SchemaCompatibility (src/schema_compatibility.py)

The field and table mappings are the constructor's literal dicts, as
association lists in source order. The constructor lower-cases
`database_type`, and `self.field_mappings[self.database_type]` only exists
for the three constructed kinds; other kinds are mapped to `[]` here (the
source would raise a `KeyError`). -/

namespace SchemaCompatibility

/-- Per-table logical-to-physical field maps for one database type. -/
def field_mappings (database_type : String) : List (String × List (String × String)) :=
  if database_type = "mock" then
    [("ai_agents",
      [("agent", "Agent"), ("description", "Description"), ("role", "Role"),
       ("model_api", "Model_API"), ("model", "Model"),
       ("polling_interval", "Polling_Interval"), ("model_api_key", "Model_API_KEY")]),
     ("ai_messages",
      [("message_id", "Message_ID"), ("posted", "Posted"), ("user_from", "User_From"),
       ("user_to", "User_To"), ("message", "Message"), ("user_read", "User_Read")]),
     ("ai_memories",
      [("memory_id", "Memory_ID"), ("agent", "Agent"), ("first_posted", "First_Posted"),
       ("times_recalled", "Times_Recalled"), ("last_recalled", "Last_Recalled"),
       ("memory_label", "Memory_Label"), ("memory", "Memory"),
       ("related_to", "Related_To"), ("purge_after", "Purge_After")]),
     ("ai_scripts",
      [("language", "Language"), ("folder", "Folder"), ("filename", "FileName"),
       ("summary", "Summary"), ("script", "Script")])]
  else if database_type = "postgresql" then
    [("ai_agents",
      [("agent", "agent"), ("description", "description"), ("role", "role"),
       ("model_api", "model_api"), ("model", "model"),
       ("polling_interval", "polling_interval")]),
     ("ai_messages",
      [("message_id", "message_id"), ("posted", "posted"), ("user_from", "user_from"),
       ("user_to", "user_to"), ("message", "message"), ("user_read", "user_read")]),
     ("ai_memories",
      [("memory_id", "memory_id"), ("agent", "agent"), ("first_posted", "first_posted"),
       ("times_recalled", "times_recalled"), ("last_recalled", "last_recalled"),
       ("memory_label", "memory_label"), ("memory", "memory"),
       ("related_to", "related_to"), ("purge_after", "purge_after")]),
     ("ai_scripts",
      [("language", "language"), ("folder", "folder"), ("filename", "filename"),
       ("summary", "summary"), ("script", "script")])]
  else if database_type = "sqlserver" then
    [("ai_agents",
      [("agent", "Agent"), ("description", "Description"), ("role", "Role"),
       ("model_api", "Model_API"), ("model", "Model"),
       ("polling_interval", "Polling_Interval")]),
     ("ai_messages",
      [("message_id", "Message_ID"), ("posted", "Posted"), ("user_from", "User_From"),
       ("user_to", "User_To"), ("message", "Message"), ("user_read", "User_Read")]),
     ("ai_memories",
      [("memory_id", "Memory_ID"), ("agent", "Agent"), ("first_posted", "First_Posted"),
       ("times_recalled", "Times_Recalled"), ("last_recalled", "Last_Recalled"),
       ("memory_label", "Memory_Label"), ("memory", "Memory"),
       ("related_to", "Related_To"), ("purge_after", "Purge_After")]),
     ("ai_scripts",
      [("language", "Language"), ("folder", "Folder"), ("filename", "FileName"),
       ("summary", "Summary"), ("script", "Script")])]
  else []

/-- Logical-to-physical table name maps. -/
def table_mappings (database_type : String) : List (String × String) :=
  if database_type = "mock" then
    [("ai_agents", "AI_Agents"), ("ai_messages", "AI_Messages"),
     ("ai_memories", "AI_Memories"), ("ai_scripts", "AI_Scripts")]
  else if database_type = "postgresql" then
    [("ai_agents", "ai_agents"), ("ai_messages", "ai_messages"),
     ("ai_memories", "ai_memories"), ("ai_scripts", "ai_scripts")]
  else if database_type = "sqlserver" then
    [("ai_agents", "AI_Agents"), ("ai_messages", "AI_Messages"),
     ("ai_memories", "AI_Memories"), ("ai_scripts", "AI_Scripts")]
  else []

/-- Translation of `SchemaCompatibility.get_table_name`: mapped physical
name, falling back to the logical name. -/
def get_table_name (database_type logical_table : String) : String :=
  (lookupStr (table_mappings database_type) logical_table).getD logical_table

/-- Python's `self.field_mappings[self.database_type].get(table, ...)`
(empty map fallback for an unknown table). -/
def table_field_mapping (database_type table : String) : List (String × String) :=
  (lookupStr (field_mappings database_type) table).getD []

/-- Translation of `SchemaCompatibility.get_field_name`: mapped physical
field name, falling back to the logical field name. -/
def get_field_name (database_type table logical_field : String) : String :=
  (lookupStr (table_field_mapping database_type table) logical_field).getD logical_field

/-- Translation of `SchemaCompatibility.convert_row_to_standard`: invert
the field mapping on the fly and rename every key; unmapped keys are
lower-cased. Dict building is modelled by `dictSet` (overwrite or append).
The concrete mappings have unique physical names, so the first-match
lookup in the reversed list agrees with Python's last-wins dict
comprehension. -/
def convert_row_to_standard (database_type table : String) (row : Row) : Row :=
  if row.isEmpty then row
  else
    let reverse_mapping := (table_field_mapping database_type table).map
      (fun kv => (kv.2, kv.1))
    row.foldl (fun converted kv =>
      dictSet converted ((lookupStr reverse_mapping kv.1).getD (pyLower kv.1)) kv.2) []

/-- Translation of `SchemaCompatibility.convert_row_from_standard`:
forward rename using the mapping; unmapped keys pass through unchanged. -/
def convert_row_from_standard (database_type table : String) (row : Row) : Row :=
  if row.isEmpty then row
  else
    let table_mapping := table_field_mapping database_type table
    row.foldl (fun converted kv =>
      dictSet converted ((lookupStr table_mapping kv.1).getD kv.1) kv.2) []

/-- The `fields_str` of `SchemaCompatibility.build_select_query`. Python
truthiness: a `None` or empty `fields` renders as `*`. -/
def fields_string (database_type table : String) (fields : Option (List String)) : String :=
  match fields with
  | some (f :: fs) =>
      String.intercalate ", "
        ((f :: fs).map (fun field => get_field_name database_type table field))
  | _ => "*"

/-- The `query` of `SchemaCompatibility.build_select_query` before the
limit handling: `SELECT fields FROM table` with the optional `WHERE` and
`ORDER BY` clauses (only non-empty clauses participate — Python
truthiness). -/
def base_query (database_type table : String) (fields : Option (List String))
    (where_clause order_by : String) : String :=
  let fields_str := fields_string database_type table fields
  let query := "SELECT " ++ fields_str ++ " FROM " ++ get_table_name database_type table
  let query := if where_clause ≠ "" then query ++ " WHERE " ++ where_clause else query
  if order_by ≠ "" then query ++ " ORDER BY " ++ order_by else query

/-- Translation of `SchemaCompatibility.build_select_query`. The
`sqlserver` branch is Python's `str.replace`, which replaces every
occurrence of `SELECT fields_str` by `SELECT TOP limit fields_str`. -/
def build_select_query (database_type table : String) (fields : Option (List String))
    (where_clause order_by : String) (limit : Int) : String :=
  let fields_str := fields_string database_type table fields
  let query := base_query database_type table fields where_clause order_by
  if limit > 0 then
    if database_type = "postgresql" then
      query ++ " LIMIT " ++ toString limit
    else if database_type = "sqlserver" then
      pyReplace query ("SELECT " ++ fields_str)
        ("SELECT TOP " ++ toString limit ++ " " ++ fields_str)
    else
      query ++ " LIMIT " ++ toString limit
  else query

end SchemaCompatibility

/-- Setting an absent key appends the pair at the end (Python dict insertion
order). -/
theorem dictSet_append {α : Type} :
    ∀ (acc : List (String × α)) (k : String) (v : α),
    k ∉ acc.map Prod.fst → dictSet acc k v = acc ++ [(k, v)] := by
  intro acc
  induction acc with
  | nil => intro k v _; rfl
  | cons kv rest ih =>
    intro k v h
    obtain ⟨k', v'⟩ := kv
    simp only [List.map_cons, List.mem_cons, not_or] at h
    show (if k' = k then (k', v) :: rest else (k', v') :: dictSet rest k v) = _
    rw [if_neg (fun he => h.1 he.symm), ih k v h.2]
    simp

/-- Building a dict by renaming the keys of a dict with `f` injective on its
keys is a plain keywise map. -/
theorem foldl_dictSet_eq_map {α : Type} (f : String → String) :
    ∀ (row : List (String × α)) (acc : List (String × α)),
    (∀ k ∈ row.map Prod.fst, f k ∉ acc.map Prod.fst) →
    ((row.map Prod.fst).map f).Nodup →
    row.foldl (fun c kv => dictSet c (f kv.1) kv.2) acc
      = acc ++ row.map (fun kv => (f kv.1, kv.2)) := by
  intro row
  induction row with
  | nil => intro acc _ _; simp
  | cons kv rest ih =>
    intro acc hdisj hnodup
    obtain ⟨k, v⟩ := kv
    simp only [List.map_cons, List.nodup_cons] at hnodup
    simp only [List.foldl_cons]
    rw [dictSet_append acc (f k) v (hdisj k (by simp))]
    rw [ih (acc ++ [(f k, v)]) ?_ hnodup.2]
    · simp
    · intro k' hk'
      simp only [List.map_append, List.mem_append, List.map_cons, List.map_nil,
        List.mem_singleton, not_or]
      refine ⟨hdisj k' (by simp [hk']), fun he => hnodup.1 ?_⟩
      rw [← he]
      exact List.mem_map_of_mem f hk'

namespace SchemaCompatibility

/-- The key-renaming function `convert_row_to_standard` applies: inverse
field lookup with lower-casing as fallback. -/
def toStandardKey (tm : List (String × String)) (k : String) : String :=
  (lookupStr (tm.map fun kv => (kv.2, kv.1)) k).getD (pyLower k)

/-- The key-renaming function `convert_row_from_standard` applies: forward
field lookup with identity fallback. -/
def fromStandardKey (tm : List (String × String)) (k : String) : String :=
  (lookupStr tm k).getD k

/-- Decidable hypotheses under which a field mapping round-trips: the
forward rename undoes the inverse rename on every physical name, and the
inverse rename is injective on physical names. -/
def goodMapping (tm : List (String × String)) : Bool :=
  (tm.map Prod.snd).all (fun k => decide (fromStandardKey tm (toStandardKey tm k) = k))
    && (tm.map Prod.snd).all (fun k1 => (tm.map Prod.snd).all (fun k2 =>
         decide (toStandardKey tm k1 = toStandardKey tm k2 → k1 = k2)))

theorem lookupStr_eq_none {α : Type} :
    ∀ (m : List (String × α)) (key : String),
    key ∉ m.map Prod.fst → lookupStr m key = none := by
  intro m
  induction m with
  | nil => intro key _; rfl
  | cons kv rest ih =>
    intro key h
    obtain ⟨k, v⟩ := kv
    simp only [List.map_cons, List.mem_cons, not_or] at h
    show (if k = key then some v else lookupStr rest key) = none
    rw [if_neg (fun he => h.1 he.symm), ih key h.2]

/-- Round trip for any mapping satisfying `goodMapping`, on any row whose
keys are all mapped physical names. -/
theorem roundtrip_of_good (d t : String) (row : Row)
    (hgood : goodMapping (table_field_mapping d t) = true)
    (hnodup : (row.map Prod.fst).Nodup)
    (hkeys : ∀ k ∈ row.map Prod.fst,
      k ∈ (table_field_mapping d t).map Prod.snd) :
    convert_row_from_standard d t (convert_row_to_standard d t row) = row := by
  simp only [goodMapping, Bool.and_eq_true, List.all_eq_true, decide_eq_true_eq] at hgood
  obtain ⟨hg, hi⟩ := hgood
  rcases row with _ | ⟨kv0, row'⟩
  · rfl
  · have hne : ((kv0 :: row' : Row).isEmpty) = false := rfl
    set row : Row := kv0 :: row' with hrow
    have hfnodup : ((row.map Prod.fst).map (toStandardKey (table_field_mapping d t))).Nodup := by
      refine List.Nodup.map_on ?_ hnodup
      intro x hx y hy hxy
      exact hi x (hkeys x hx) y (hkeys y hy) hxy
    have h1 : convert_row_to_standard d t row
        = row.map (fun kv => (toStandardKey (table_field_mapping d t) kv.1, kv.2)) := by
      show (if row.isEmpty then row else
        row.foldl (fun c kv =>
          dictSet c (toStandardKey (table_field_mapping d t) kv.1) kv.2) []) = _
      rw [hne]
      simp only [Bool.false_eq_true, if_false]
      rw [foldl_dictSet_eq_map _ row [] (by simp) hfnodup]
      simp
    have hmapped_ne : (row.map (fun kv =>
        (toStandardKey (table_field_mapping d t) kv.1, kv.2))).isEmpty = false := by
      rw [hrow]; rfl
    have hgnodup : (((row.map fun kv =>
        (toStandardKey (table_field_mapping d t) kv.1, kv.2)).map Prod.fst).map
          (fromStandardKey (table_field_mapping d t))).Nodup := by
      have heq : ((row.map fun kv =>
          (toStandardKey (table_field_mapping d t) kv.1, kv.2)).map Prod.fst).map
            (fromStandardKey (table_field_mapping d t)) = row.map Prod.fst := by
        simp only [List.map_map]
        refine List.map_congr_left ?_
        intro kv hkv
        exact hg kv.1 (hkeys kv.1 (List.mem_map_of_mem Prod.fst hkv))
      rw [heq]
      exact hnodup
    rw [h1]
    show (if (row.map fun kv =>
        (toStandardKey (table_field_mapping d t) kv.1, kv.2)).isEmpty then _ else
      (row.map fun kv => (toStandardKey (table_field_mapping d t) kv.1, kv.2)).foldl
        (fun c kv => dictSet c (fromStandardKey (table_field_mapping d t) kv.1) kv.2) []) = row
    rw [hmapped_ne]
    simp only [Bool.false_eq_true, if_false]
    rw [foldl_dictSet_eq_map _ _ [] (by simp) hgnodup]
    simp only [List.nil_append, List.map_map]
    have : ∀ kv ∈ row, ((fun kv => (fromStandardKey (table_field_mapping d t) kv.1, kv.2)) ∘
        fun kv => (toStandardKey (table_field_mapping d t) kv.1, kv.2)) kv = kv := by
      intro kv hkv
      simp only [Function.comp_apply]
      rw [hg kv.1 (hkeys kv.1 (List.mem_map_of_mem Prod.fst hkv))]
    rw [List.map_congr_left this, List.map_id']

/-- Every table's field mapping, for every database type, satisfies the
round-trip hypotheses (unknown types and tables get the empty mapping). -/
theorem goodMapping_all (d t : String) :
    goodMapping (table_field_mapping d t) = true := by
  have hfall : ∀ (d' : String), t ∉ (field_mappings d').map Prod.fst →
      goodMapping (table_field_mapping d' t) = true := by
    intro d' hmem
    show goodMapping ((lookupStr (field_mappings d') t).getD []) = true
    rw [lookupStr_eq_none _ _ hmem]
    rfl
  have hknown : ∀ (d' : String),
      (field_mappings d').map Prod.fst = ["ai_agents", "ai_messages", "ai_memories", "ai_scripts"]
      ∨ (field_mappings d').map Prod.fst = [] → ¬ t = "ai_agents" → ¬ t = "ai_messages" →
      ¬ t = "ai_memories" → ¬ t = "ai_scripts" →
      goodMapping (table_field_mapping d' t) = true := by
    intro d' hk ht1 ht2 ht3 ht4
    refine hfall d' ?_
    rcases hk with hk | hk <;> rw [hk] <;> simp [ht1, ht2, ht3, ht4]
  by_cases hd1 : d = "mock"
  · subst hd1
    by_cases ht1 : t = "ai_agents"
    · subst ht1; decide
    by_cases ht2 : t = "ai_messages"
    · subst ht2; decide
    by_cases ht3 : t = "ai_memories"
    · subst ht3; decide
    by_cases ht4 : t = "ai_scripts"
    · subst ht4; decide
    exact hknown "mock" (Or.inl rfl) ht1 ht2 ht3 ht4
  by_cases hd2 : d = "postgresql"
  · subst hd2
    by_cases ht1 : t = "ai_agents"
    · subst ht1; decide
    by_cases ht2 : t = "ai_messages"
    · subst ht2; decide
    by_cases ht3 : t = "ai_memories"
    · subst ht3; decide
    by_cases ht4 : t = "ai_scripts"
    · subst ht4; decide
    exact hknown "postgresql" (Or.inl rfl) ht1 ht2 ht3 ht4
  by_cases hd3 : d = "sqlserver"
  · subst hd3
    by_cases ht1 : t = "ai_agents"
    · subst ht1; decide
    by_cases ht2 : t = "ai_messages"
    · subst ht2; decide
    by_cases ht3 : t = "ai_memories"
    · subst ht3; decide
    by_cases ht4 : t = "ai_scripts"
    · subst ht4; decide
    exact hknown "sqlserver" (Or.inl rfl) ht1 ht2 ht3 ht4
  refine hfall d ?_
  have hnil : field_mappings d = [] := by
    unfold field_mappings
    rw [if_neg hd1, if_neg hd2, if_neg hd3]
  rw [hnil]
  simp

end SchemaCompatibility

/-- Claim C6: for each backend kind, every logical table and every physical
row whose keys are all mapped physical names (with the unique keys of a
Python dict), converting to standard field names and back yields the same
row — the field mapping is a bijection on mapped fields. -/
theorem convert_row_roundtrip (database_type : String)
    (hdb : database_type ∈ (["mock", "postgresql", "sqlserver"] : List String))
    (table : String) (row : Row)
    (hnodup : (row.map Prod.fst).Nodup)
    (hkeys : ∀ k ∈ row.map Prod.fst,
      k ∈ (SchemaCompatibility.table_field_mapping database_type table).map Prod.snd) :
    SchemaCompatibility.convert_row_from_standard database_type table
      (SchemaCompatibility.convert_row_to_standard database_type table row) = row := by
  clear hdb
  exact SchemaCompatibility.roundtrip_of_good database_type table row
    (SchemaCompatibility.goodMapping_all database_type table) hnodup hkeys

/-- Witness for claim C6: the round trip evaluated on a concrete physical
row of the mock backend's `ai_agents` table. -/
theorem convert_row_roundtrip_witness :
    SchemaCompatibility.convert_row_from_standard "mock" "ai_agents"
      (SchemaCompatibility.convert_row_to_standard "mock" "ai_agents"
        [("Agent", Val.str "LoanAnalyst"), ("Model", Val.str "qwen2.5-coder")])
      = [("Agent", Val.str "LoanAnalyst"), ("Model", Val.str "qwen2.5-coder")] :=
  convert_row_roundtrip "mock" (by decide) "ai_agents"
    [("Agent", Val.str "LoanAnalyst"), ("Model", Val.str "qwen2.5-coder")]
    (by decide) (by decide)

/-! ### Lemmas about Python `str.replace`, for the `TOP` rewrite (claim C8) -/

/-- Unfolding `replaceAllAux` when the pattern matches at the head. -/
theorem replaceAllAux_head_match (pat repl s : List Char) (fuel : Nat)
    (hne : pat ≠ []) (hp : pat.isPrefixOf s = true) (hf : 1 ≤ fuel) :
    replaceAllAux pat repl fuel s
      = repl ++ replaceAllAux pat repl (fuel - 1) (s.drop pat.length) := by
  cases fuel with
  | zero => omega
  | succ f =>
    simp only [replaceAllAux]
    rw [if_pos ⟨hne, hp⟩]
    simp

/-- Replacement copies a block that does not contain the pattern's first
character. -/
theorem replaceAllAux_skip (p : Char) (ps repl : List Char) :
    ∀ (l₁ : List Char) (fuel : Nat) (l₂ : List Char), p ∉ l₁ → l₁.length ≤ fuel →
    replaceAllAux (p :: ps) repl fuel (l₁ ++ l₂)
      = l₁ ++ replaceAllAux (p :: ps) repl (fuel - l₁.length) l₂ := by
  intro l₁
  induction l₁ with
  | nil => intro fuel l₂ _ _; simp
  | cons c t ih =>
    intro fuel l₂ hmem hlen
    simp only [List.mem_cons, not_or] at hmem
    cases fuel with
    | zero => simp only [List.length_cons] at hlen; omega
    | succ f =>
      have hpre : ((p :: ps).isPrefixOf (c :: (t ++ l₂))) = false := by
        simp only [List.isPrefixOf, Bool.and_eq_false_iff]
        left
        simp only [beq_eq_false_iff_ne, ne_eq]
        exact hmem.1
      have harith : f + 1 - (c :: t).length = f - t.length := by
        simp only [List.length_cons]; omega
      rw [harith]
      show replaceAllAux (p :: ps) repl (f + 1) (c :: (t ++ l₂)) = _
      simp only [replaceAllAux]
      rw [if_neg (fun h => by rw [hpre] at h; exact absurd h.2 (by simp))]
      rw [ih f l₂ hmem.2 (by simp only [List.length_cons] at hlen; omega)]
      simp

namespace SchemaCompatibility

/-- The `sqlserver` branch of `build_select_query` as the Python
`str.replace` of the rendered base query. -/
theorem build_select_query_sqlserver_eq (table : String) (fields : Option (List String))
    (where_clause order_by : String) (limit : Int) (hlim : 0 < limit) :
    build_select_query "sqlserver" table fields where_clause order_by limit
      = pyReplace (base_query "sqlserver" table fields where_clause order_by)
          ("SELECT " ++ fields_string "sqlserver" table fields)
          ("SELECT TOP " ++ toString limit ++ " " ++ fields_string "sqlserver" table fields) := by
  simp only [build_select_query]
  rw [if_pos hlim]
  simp

/-- The rendered base query splits as pattern, `" FROM "`, remainder. -/
theorem base_query_split (d table : String) (fields : Option (List String))
    (where_clause order_by : String) :
    ∃ restc : List Char,
      (base_query d table fields where_clause order_by).data
        = ("SELECT " ++ fields_string d table fields).data ++ (" FROM ".data ++ restc) := by
  simp only [base_query]
  by_cases hw : where_clause = ""
  · by_cases ho : order_by = ""
    · rw [if_neg (fun h => h ho), if_neg (fun h => h hw)]
      simp only [String.data_append, List.append_assoc]
      exact ⟨_, rfl⟩
    · rw [if_pos ho, if_neg (fun h => h hw)]
      simp only [String.data_append, List.append_assoc]
      exact ⟨_, rfl⟩
  · by_cases ho : order_by = ""
    · rw [if_neg (fun h => h ho), if_pos hw]
      simp only [String.data_append, List.append_assoc]
      exact ⟨_, rfl⟩
    · rw [if_pos ho, if_pos hw]
      simp only [String.data_append, List.append_assoc]
      exact ⟨_, rfl⟩

end SchemaCompatibility

/-- Claim C8: with `limit > 0`, the `postgresql` and `mock` kinds append
exactly `" LIMIT n"` to the rendered `SELECT ... FROM ...` query, while the
`sqlserver` kind instead applies Python's `str.replace` and produces a
query that begins `SELECT TOP n fields FROM` with no appended `LIMIT`
clause (shown exactly on a concrete query in the last conjunct). -/
theorem build_select_query_spec (table : String) (fields : Option (List String))
    (where_clause order_by : String) (limit : Int) (hlim : 0 < limit) :
    SchemaCompatibility.build_select_query "postgresql" table fields where_clause order_by limit
      = SchemaCompatibility.base_query "postgresql" table fields where_clause order_by
          ++ " LIMIT " ++ toString limit
    ∧ SchemaCompatibility.build_select_query "mock" table fields where_clause order_by limit
      = SchemaCompatibility.base_query "mock" table fields where_clause order_by
          ++ " LIMIT " ++ toString limit
    ∧ SchemaCompatibility.build_select_query "sqlserver" table fields where_clause order_by limit
      = pyReplace (SchemaCompatibility.base_query "sqlserver" table fields where_clause order_by)
          ("SELECT " ++ SchemaCompatibility.fields_string "sqlserver" table fields)
          ("SELECT TOP " ++ toString limit ++ " "
            ++ SchemaCompatibility.fields_string "sqlserver" table fields)
    ∧ pyStartsWith
        (SchemaCompatibility.build_select_query "sqlserver" table fields where_clause order_by limit)
        ("SELECT TOP " ++ toString limit ++ " "
          ++ SchemaCompatibility.fields_string "sqlserver" table fields ++ " FROM ") = true
    ∧ SchemaCompatibility.build_select_query "sqlserver" "ai_agents" none "" "" 3
        = "SELECT TOP 3 * FROM AI_Agents" := by
  refine ⟨?_, ?_, SchemaCompatibility.build_select_query_sqlserver_eq _ _ _ _ _ hlim, ?_, by decide⟩
  · simp only [SchemaCompatibility.build_select_query]
    rw [if_pos hlim]
    simp
  · simp only [SchemaCompatibility.build_select_query]
    rw [if_pos hlim]
    simp
  · rw [SchemaCompatibility.build_select_query_sqlserver_eq _ _ _ _ _ hlim]
    obtain ⟨restc, hB⟩ :=
      SchemaCompatibility.base_query_split "sqlserver" table fields where_clause order_by
    have hpd : ("SELECT " ++ SchemaCompatibility.fields_string "sqlserver" table fields).data
        = 'S' :: ("ELECT " ++ SchemaCompatibility.fields_string "sqlserver" table fields).data := by
      simp [String.data_append]
    show (("SELECT TOP " ++ toString limit ++ " "
        ++ SchemaCompatibility.fields_string "sqlserver" table fields ++ " FROM ").data).isPrefixOf
      (replaceAllAux
        ("SELECT " ++ SchemaCompatibility.fields_string "sqlserver" table fields).data
        ("SELECT TOP " ++ toString limit ++ " "
          ++ SchemaCompatibility.fields_string "sqlserver" table fields).data
        (SchemaCompatibility.base_query "sqlserver" table fields where_clause order_by).data.length
        (SchemaCompatibility.base_query "sqlserver" table fields where_clause order_by).data) = true
    rw [hB]
    rw [replaceAllAux_head_match _ _ _ _
      (by rw [hpd]; simp)
      (( List.isPrefixOf_iff_prefix).mpr (List.prefix_append _ _))
      (by rw [hpd]; simp)]
    rw [List.drop_left]
    rw [hpd, replaceAllAux_skip 'S'
      ("ELECT " ++ SchemaCompatibility.fields_string "sqlserver" table fields).data _
      " FROM ".data _ restc (by decide)
      (by
        simp only [List.length_append, List.length_cons]
        have : (" FROM ".data).length = 6 := by decide
        omega)]
    rw [show (("SELECT TOP " ++ toString limit ++ " "
        ++ SchemaCompatibility.fields_string "sqlserver" table fields ++ " FROM ").data)
        = ("SELECT TOP " ++ toString limit ++ " "
            ++ SchemaCompatibility.fields_string "sqlserver" table fields).data ++ " FROM ".data
      from by simp [String.data_append]]
    rw [← List.append_assoc]
    exact ( List.isPrefixOf_iff_prefix).mpr (List.prefix_append _ _)

/-- Witness for claim C8: the theorem applied at a concrete query with
`limit = 5 > 0`. -/
theorem build_select_query_spec_witness :
    SchemaCompatibility.build_select_query "postgresql" "ai_messages" none "" "" 5
      = SchemaCompatibility.base_query "postgresql" "ai_messages" none "" ""
          ++ " LIMIT " ++ toString (5 : Int) :=
  (build_select_query_spec "ai_messages" none "" "" 5 (by decide)).1

/-! ### MCPToolProvider (src/mcp_tools.py and src/mcp_tools_pg.py)

`execute_tool` is parametric in the registry: a tool body takes the
parameter dict and either returns a value or raises (`Except.error`),
which models Python's `tool_func(**parameters)` including a failed keyword
binding. The backend's `sql_get` is a function argument
(`String → String → Except String (List Row)`); a raised database
exception is its `error` case. -/

/-- Parameter dict of a tool call. -/
abbrev ParamMap : Type := List (String × Val)

/-- A registered tool: Python bound method invoked as
`tool_func(**parameters)`. -/
abbrev ToolBody : Type := ParamMap → Except String Val

namespace MCPTools

/-- Translation of `MCPToolProvider.execute_tool` (src/mcp_tools.py lines
64-95): unknown names get an error envelope carrying the registry's key
list; a known tool's normal return is wrapped as success, a raised
exception as an error envelope. The surrounding `try` also covers the
unknown-tool branch, which only builds a dict and cannot raise. -/
def execute_tool (tools : List (String × ToolBody)) (tool_name : String)
    (parameters : ParamMap) : Val :=
  match lookupStr tools tool_name with
  | none =>
      .obj [("success", .bool false),
            ("error", .str ("Unknown tool: " ++ tool_name)),
            ("available_tools", .arr ((tools.map Prod.fst).map Val.str))]
  | some tool_func =>
      match tool_func parameters with
      | .ok result => .obj [("success", .bool true), ("data", result)]
      | .error e => .obj [("success", .bool false), ("error", .str e)]

/-- The key set of `self.tools` as built in `MCPToolProvider.__init__`
(src/mcp_tools.py lines 33-60), in source order. -/
def tool_names : List String :=
  ["connect_to_database", "list_databases",
   "get_schema_info", "describe_table", "get_table_relationships",
   "get_table_dependencies",
   "execute_query", "validate_sql", "get_query_history", "check_permissions",
   "sample_table", "get_column_stats",
   "store_memory", "retrieve_memories", "search_memories", "update_memory",
   "delete_memory", "get_memory_stats"]

/-- The query `execute_query` sends to the backend (src/mcp_tools.py lines
288-290): append `" LIMIT row_limit"` unless `"limit"` occurs as a
substring of the lowered, stripped query text or `row_limit ≤ 0`. -/
def limited_query (sql_query : String) (row_limit : Int) : String :=
  if ¬ pyContains (pyStrip (pyLower sql_query)) "limit" ∧ row_limit > 0 then
    sql_query ++ " LIMIT " ++ toString row_limit
  else sql_query

/-- Translation of `MCPToolProvider.execute_query` (src/mcp_tools.py lines
280-309). Wall-clock timing is an input. `_log_query_history` catches its
own exceptions (lines 563-580), so it never alters the returned value and
is omitted from the value model. A raised backend exception is caught and
returned as an error dict, so this function itself never raises. -/
def execute_query (dbGet : String → String → Except String (List Row))
    (execution_time_ms : Int) (database_name sql_query : String)
    (row_limit : Int) : Val :=
  if ¬ pyStartsWith (pyStrip (pyLower sql_query)) "select" then
    .obj [("error", .str "Only SELECT queries are allowed")]
  else
    match dbGet (limited_query sql_query row_limit) database_name with
    | .error e => .obj [("error", .str e)]
    | .ok results =>
        .obj [("query", .str (limited_query sql_query row_limit)),
              ("row_count", .num results.length),
              ("execution_time_ms", .num execution_time_ms),
              ("results", .arr (results.map Val.obj))]

/-- The `execute_query` registry entry: keyword binding of `**parameters`
to the signature `(database_name, sql_query, row_limit=1000)`; a binding
failure is Python's `TypeError`, raised at the call. -/
def execute_query_body (dbGet : String → String → Except String (List Row))
    (execution_time_ms : Int) : ToolBody := fun parameters =>
  match lookupStr parameters "database_name", lookupStr parameters "sql_query" with
  | some (.str database_name), some (.str sql_query) =>
      let row_limit : Int :=
        match lookupStr parameters "row_limit" with
        | some (.num n) => n
        | _ => 1000
      .ok (execute_query dbGet execution_time_ms database_name sql_query row_limit)
  | _, _ => .error "execute_query() missing required keyword arguments"

/-- The registry with the source's 18 tool names, carrying the embedded
`execute_query` body; the other 17 bodies are opaque parameters. -/
def registry (dbGet : String → String → Except String (List Row))
    (execution_time_ms : Int) (other : String → ToolBody) :
    List (String × ToolBody) :=
  tool_names.map (fun n =>
    (n, if n = "execute_query" then execute_query_body dbGet execution_time_ms
        else other n))

end MCPTools

namespace MCPToolsPG

/-- The query the PostgreSQL variant sends (src/mcp_tools_pg.py lines
284-286): same substring test, but trailing `';'` characters are stripped
before `" LIMIT row_limit"` is appended. -/
def limited_query (sql_query : String) (row_limit : Int) : String :=
  if ¬ pyContains (pyStrip (pyLower sql_query)) "limit" ∧ row_limit > 0 then
    pyRstripSemi sql_query ++ " LIMIT " ++ toString row_limit
  else sql_query

end MCPToolsPG

/-- The issues list both `validate_sql` variants accumulate, in source
order: one issue per flagged dangerous keyword, then the non-`SELECT`
issue, then the parenthesis-mismatch issue (`sql_lower` is the lowered
stripped text, written out at each use). -/
def validate_issues (dangerous_keywords : List String)
    (flagged : String → String → Bool) (sql_query : String) : List String :=
  ((dangerous_keywords.filter
      (fun keyword => flagged (pyStrip (pyLower sql_query)) keyword)).map
    (fun keyword => "Contains potentially dangerous keyword: " ++ keyword)
    ++ (if ¬ pyStartsWith (pyStrip (pyLower sql_query)) "select" then
      ["Query must start with SELECT"] else []))
    ++ (if pyCountChar sql_query '(' ≠ pyCountChar sql_query ')' then
      ["Mismatched parentheses"] else [])

/-- Shared shape of both `validate_sql` variants: flag each dangerous
keyword the per-variant test finds, flag non-`SELECT`-leading text, flag a
parenthesis-count mismatch; never executes anything. Factored out because
the two Python bodies differ only in the keyword list and the keyword
test. -/
def validate_sql_core (dangerous_keywords : List String)
    (flagged : String → String → Bool) (sql_query : String) : Val :=
  let issues := validate_issues dangerous_keywords flagged sql_query
  .obj [("valid", .bool issues.isEmpty), ("issues", .arr (issues.map Val.str)),
        ("query", .str sql_query)]

namespace MCPTools

/-- Translation of `MCPToolProvider.validate_sql` (src/mcp_tools.py lines
311-340): six keywords — no `create` — matched as naive substrings of the
lowered stripped text. -/
def validate_sql (_database_name sql_query : String) : Val :=
  validate_sql_core ["drop", "delete", "update", "insert", "truncate", "alter"]
    (fun sql_lower keyword => pyContains sql_lower keyword) sql_query

end MCPTools

namespace MCPToolsPG

/-- Translation of the PostgreSQL variant's `validate_sql`
(src/mcp_tools_pg.py lines 305-333): seven keywords including `create`,
matched space-delimited (`" keyword "` inside the space-padded text, or the
leading token `"keyword "`). -/
def validate_sql (_database_name sql_query : String) : Val :=
  validate_sql_core ["drop", "delete", "update", "insert", "truncate", "alter", "create"]
    (fun sql_lower keyword =>
      pyContains (" " ++ sql_lower ++ " ") (" " ++ keyword ++ " ")
        || pyStartsWith sql_lower (keyword ++ " "))
    sql_query

end MCPToolsPG

/-- The issues list of a `validate_sql` result. -/
def issuesOf (v : Val) : List Val :=
  match getField v "issues" with
  | some (.arr l) => l
  | _ => []

/-- The uniform envelope contract: `success` is always present and a
boolean, and `error` is present exactly when `success` is false. -/
def envelope_ok (v : Val) : Prop :=
  (∃ b, getField v "success" = some (.bool b))
  ∧ ((∃ e, getField v "error" = some e) ↔ getField v "success" = some (.bool false))

/-- Claim C4: for every registry, tool name known to it and parameter dict,
a tool body that raises is converted into a `success=false` envelope
carrying the message, a body that returns `v` is wrapped as
`success=true, data=v`; and every call — known or unknown tool, success or
failure — yields exactly one envelope in which `success` is present and
`error` is present if and only if `success` is false. -/
theorem execute_tool_spec (tools : List (String × ToolBody)) (tool_name : String)
    (parameters : ParamMap) :
    (∀ f, lookupStr tools tool_name = some f →
      (∀ v, f parameters = .ok v →
        MCPTools.execute_tool tools tool_name parameters
          = .obj [("success", .bool true), ("data", v)])
      ∧ (∀ e, f parameters = .error e →
        MCPTools.execute_tool tools tool_name parameters
          = .obj [("success", .bool false), ("error", .str e)]))
    ∧ envelope_ok (MCPTools.execute_tool tools tool_name parameters) := by
  constructor
  · intro f hf
    constructor
    · intro v hv
      simp [MCPTools.execute_tool, hf, hv]
    · intro e he
      simp [MCPTools.execute_tool, hf, he]
  · unfold MCPTools.execute_tool
    cases hl : lookupStr tools tool_name with
    | none => simp [envelope_ok, getField, lookupStr]
    | some f =>
      cases hr : f parameters <;> simp [envelope_ok, getField, lookupStr, hr]

/-- Witness for claim C4: a one-tool registry whose body returns `null`,
called with the known name and the empty parameter dict. -/
theorem execute_tool_spec_witness :
    MCPTools.execute_tool [("sample_table", fun _ => Except.ok Val.null)] "sample_table" []
      = Val.obj [("success", Val.bool true), ("data", Val.null)]
    ∧ envelope_ok
        (MCPTools.execute_tool [("sample_table", fun _ => Except.ok Val.null)] "sample_table" []) :=
  ⟨((execute_tool_spec [("sample_table", fun _ => Except.ok Val.null)] "sample_table" []).1
      _ rfl).1 Val.null rfl,
   (execute_tool_spec [("sample_table", fun _ => Except.ok Val.null)] "sample_table" []).2⟩

/-- Claim C5: a tool name absent from the registry yields (never raises) a
`success=false` envelope whose `available_tools` is the registry's full,
non-empty key set. -/
theorem execute_tool_unknown_spec (other : String → ToolBody)
    (dbGet : String → String → Except String (List Row)) (execution_time_ms : Int)
    (tool_name : String) (parameters : ParamMap)
    (hunknown : tool_name ∉ MCPTools.tool_names) :
    MCPTools.execute_tool (MCPTools.registry dbGet execution_time_ms other) tool_name parameters
      = .obj [("success", .bool false),
              ("error", .str ("Unknown tool: " ++ tool_name)),
              ("available_tools", .arr (MCPTools.tool_names.map Val.str))]
    ∧ MCPTools.tool_names ≠ [] := by
  have hkeys : (MCPTools.registry dbGet execution_time_ms other).map Prod.fst
      = MCPTools.tool_names := by
    simp [MCPTools.registry, List.map_map, Function.comp_def]
  have hnone := SchemaCompatibility.lookupStr_eq_none
    (MCPTools.registry dbGet execution_time_ms other) tool_name
    (by rw [hkeys]; exact hunknown)
  constructor
  · simp [MCPTools.execute_tool, hnone, hkeys]
  · simp [MCPTools.tool_names]

/-- Witness for claim C5: the unknown name `"drop_table"` against the full
registry. -/
theorem execute_tool_unknown_spec_witness :
    MCPTools.execute_tool
        (MCPTools.registry (fun _ _ => Except.ok []) 0 (fun _ => fun _ => Except.ok Val.null))
        "drop_table" []
      = Val.obj [("success", Val.bool false),
                 ("error", Val.str ("Unknown tool: " ++ "drop_table")),
                 ("available_tools", Val.arr (MCPTools.tool_names.map Val.str))]
    ∧ MCPTools.tool_names ≠ [] :=
  execute_tool_unknown_spec (fun _ => fun _ => Except.ok Val.null)
    (fun _ _ => Except.ok []) 0 "drop_table" [] (by decide)

/-- Counterexample to claim C1: `execute_query` returns the rejection dict
normally instead of raising, so `execute_tool` wraps it as `success=true`
with the error inside `data` — the envelope for `"  update x"` does not
have `success=false`. -/
theorem execute_query_reject_counterexample :
    MCPTools.execute_tool
        (MCPTools.registry (fun _ _ => Except.ok []) 0 (fun _ => fun _ => Except.ok Val.null))
        "execute_query"
        [("database_name", Val.str "TriAI_Main"), ("sql_query", Val.str "  update x"),
         ("row_limit", Val.num 100)]
      = Val.obj [("success", Val.bool true),
                 ("data", Val.obj [("error", Val.str "Only SELECT queries are allowed")])]
    ∧ getField
        (MCPTools.execute_tool
          (MCPTools.registry (fun _ _ => Except.ok []) 0 (fun _ => fun _ => Except.ok Val.null))
          "execute_query"
          [("database_name", Val.str "TriAI_Main"), ("sql_query", Val.str "  update x"),
           ("row_limit", Val.num 100)]) "success"
        ≠ some (Val.bool false) := by
  constructor
  · rfl
  · have hs : getField
        (MCPTools.execute_tool
          (MCPTools.registry (fun _ _ => Except.ok []) 0 (fun _ => fun _ => Except.ok Val.null))
          "execute_query"
          [("database_name", Val.str "TriAI_Main"), ("sql_query", Val.str "  update x"),
           ("row_limit", Val.num 100)]) "success" = some (Val.bool true) := rfl
    rw [hs]
    simp

/-- Amended claim C1: for every parameter triple, a query whose lowered
stripped text does not start with `select` makes
`execute_tool("execute_query", ...)` return the envelope `success=true`
with `data = ⦃error: Only SELECT queries are allowed⦄` (the rejection is
inside `data`, not a top-level `success=false`); when the text does start
with `select` the rejection does not occur: the envelope wraps the real
`execute_query` result, whose successful form has no `error` field. -/
theorem execute_query_reject_envelope
    (dbGet : String → String → Except String (List Row)) (execution_time_ms : Int)
    (other : String → ToolBody) (database_name sql_query : String) (row_limit : Int) :
    (pyStartsWith (pyStrip (pyLower sql_query)) "select" = false →
      MCPTools.execute_tool (MCPTools.registry dbGet execution_time_ms other) "execute_query"
          [("database_name", .str database_name), ("sql_query", .str sql_query),
           ("row_limit", .num row_limit)]
        = .obj [("success", .bool true),
                ("data", .obj [("error", .str "Only SELECT queries are allowed")])])
    ∧ (pyStartsWith (pyStrip (pyLower sql_query)) "select" = true →
      MCPTools.execute_tool (MCPTools.registry dbGet execution_time_ms other) "execute_query"
          [("database_name", .str database_name), ("sql_query", .str sql_query),
           ("row_limit", .num row_limit)]
        = .obj [("success", .bool true),
                ("data", MCPTools.execute_query dbGet execution_time_ms database_name
                  sql_query row_limit)]
      ∧ ∀ rows, dbGet (MCPTools.limited_query sql_query row_limit) database_name
            = Except.ok rows →
          getField (MCPTools.execute_query dbGet execution_time_ms database_name
            sql_query row_limit) "error" = none) := by
  have henv : MCPTools.execute_tool (MCPTools.registry dbGet execution_time_ms other)
      "execute_query"
      [("database_name", .str database_name), ("sql_query", .str sql_query),
       ("row_limit", .num row_limit)]
      = .obj [("success", .bool true),
              ("data", MCPTools.execute_query dbGet execution_time_ms database_name
                sql_query row_limit)] := rfl
  constructor
  · intro hgate
    rw [henv]
    have hq : MCPTools.execute_query dbGet execution_time_ms database_name sql_query row_limit
        = .obj [("error", .str "Only SELECT queries are allowed")] := by
      unfold MCPTools.execute_query
      rw [if_pos (by rw [hgate]; simp)]
    rw [hq]
  · intro hgate
    refine ⟨henv, ?_⟩
    intro rows hrows
    unfold MCPTools.execute_query
    rw [if_neg (by rw [hgate]; simp), hrows]
    rfl

/-- Witness for the amended claim C1: a rejected `"  update x"` call and an
accepted mixed-case `"SeLeCt"` call, each hypothesis discharged by
evaluation. -/
theorem execute_query_reject_envelope_witness :
    MCPTools.execute_tool
        (MCPTools.registry (fun _ _ => Except.ok []) 7 (fun _ => fun _ => Except.ok Val.null))
        "execute_query"
        [("database_name", Val.str "TriAI_Main"), ("sql_query", Val.str "  update x"),
         ("row_limit", Val.num 100)]
      = Val.obj [("success", Val.bool true),
                 ("data", Val.obj [("error", Val.str "Only SELECT queries are allowed")])]
    ∧ MCPTools.execute_tool
        (MCPTools.registry (fun _ _ => Except.ok []) 7 (fun _ => fun _ => Except.ok Val.null))
        "execute_query"
        [("database_name", Val.str "TriAI_Main"),
         ("sql_query", Val.str "SeLeCt * FROM AI_Agents"), ("row_limit", Val.num 100)]
      = Val.obj [("success", Val.bool true),
                 ("data", MCPTools.execute_query (fun _ _ => Except.ok []) 7 "TriAI_Main"
                   "SeLeCt * FROM AI_Agents" 100)] :=
  ⟨(execute_query_reject_envelope (fun _ _ => Except.ok []) 7
      (fun _ => fun _ => Except.ok Val.null) "TriAI_Main" "  update x" 100).1 (by decide),
   ((execute_query_reject_envelope (fun _ _ => Except.ok []) 7
      (fun _ => fun _ => Except.ok Val.null) "TriAI_Main" "SeLeCt * FROM AI_Agents" 100).2
      (by decide)).1⟩

/-- Counterexample to claim C10: the PostgreSQL variant does not append
`" LIMIT n"` to the unchanged query — it strips trailing semicolons first,
so `"SELECT 1;"` becomes `"SELECT 1 LIMIT 5"`, not `"SELECT 1; LIMIT 5"`. -/
theorem limited_query_pg_counterexample :
    MCPToolsPG.limited_query "SELECT 1;" 5 = "SELECT 1 LIMIT 5"
    ∧ MCPToolsPG.limited_query "SELECT 1;" 5 ≠ "SELECT 1;" ++ " LIMIT " ++ toString (5 : Int) := by
  constructor
  · rfl
  · decide

/-- Amended claim C10: both `execute_query` variants decide by a
case-insensitive substring test for `"limit"` anywhere in the trimmed
query text; when the substring occurs the query goes to the backend
unchanged even for `row_limit > 0`, and when it is absent with
`row_limit > 0` the plain variant appends exactly `" LIMIT row_limit"` to
the unchanged query while the PostgreSQL variant first strips trailing
semicolons; with `row_limit ≤ 0` the query is never changed; the `query`
field of a successful `execute_query` result is exactly the limited
query. -/
theorem limited_query_spec (sql_query : String) (row_limit : Int) :
    (pyContains (pyStrip (pyLower sql_query)) "limit" = true →
      MCPTools.limited_query sql_query row_limit = sql_query
      ∧ MCPToolsPG.limited_query sql_query row_limit = sql_query)
    ∧ (pyContains (pyStrip (pyLower sql_query)) "limit" = false → 0 < row_limit →
      MCPTools.limited_query sql_query row_limit
          = sql_query ++ " LIMIT " ++ toString row_limit
      ∧ MCPToolsPG.limited_query sql_query row_limit
          = pyRstripSemi sql_query ++ " LIMIT " ++ toString row_limit)
    ∧ (row_limit ≤ 0 →
      MCPTools.limited_query sql_query row_limit = sql_query
      ∧ MCPToolsPG.limited_query sql_query row_limit = sql_query)
    ∧ (∀ (dbGet : String → String → Except String (List Row)) (execution_time_ms : Int)
        (database_name : String) (rows : List Row),
        dbGet (MCPTools.limited_query sql_query row_limit) database_name = Except.ok rows →
        pyStartsWith (pyStrip (pyLower sql_query)) "select" = true →
        getField (MCPTools.execute_query dbGet execution_time_ms database_name sql_query
          row_limit) "query" = some (Val.str (MCPTools.limited_query sql_query row_limit))) := by
  refine ⟨?_, ?_, ?_, ?_⟩
  · intro hc
    constructor <;>
      · simp only [MCPTools.limited_query, MCPToolsPG.limited_query]
        rw [if_neg (by rw [hc]; simp)]
  · intro hc hl
    constructor <;>
      · simp only [MCPTools.limited_query, MCPToolsPG.limited_query]
        rw [if_pos (by rw [hc]; simp; omega)]
  · intro hl
    constructor <;>
      · simp only [MCPTools.limited_query, MCPToolsPG.limited_query]
        rw [if_neg (fun h => absurd h.2 (by omega))]
  · intro dbGet execution_time_ms database_name rows hrows hgate
    unfold MCPTools.execute_query
    rw [if_neg (by rw [hgate]; simp), hrows]
    rfl

/-- Witness for the amended claim C10: a query containing `limit` only
inside a column name is passed unchanged; one without the substring gets
the suffix. -/
theorem limited_query_spec_witness :
    MCPTools.limited_query "SELECT credit_limit FROM Loans" 5
        = "SELECT credit_limit FROM Loans"
    ∧ MCPTools.limited_query "SELECT * FROM Loans" 5
        = "SELECT * FROM Loans" ++ " LIMIT " ++ toString (5 : Int) :=
  ⟨((limited_query_spec "SELECT credit_limit FROM Loans" 5).1 (by decide)).1,
   ((limited_query_spec "SELECT * FROM Loans" 5).2.1 (by decide) (by decide)).1⟩

/-! ### Characterisation of `validate_sql` (claim C2) -/

theorem string_append_left_cancel (s t u : String) (h : s ++ t = s ++ u) : t = u := by
  have hd := congrArg String.data h
  simp only [String.data_append] at hd
  exact String.ext (List.append_cancel_left hd)

theorem contains_prefix_ne_select (k : String) :
    "Contains potentially dangerous keyword: " ++ k ≠ "Query must start with SELECT" := by
  intro h
  have hlen := congrArg (fun s : String => s.data.length) h
  simp only [String.data_append, List.length_append] at hlen
  rw [show ("Contains potentially dangerous keyword: " : String).data.length = 40 from rfl,
    show ("Query must start with SELECT" : String).data.length = 28 from rfl] at hlen
  omega

theorem contains_prefix_ne_paren (k : String) :
    "Contains potentially dangerous keyword: " ++ k ≠ "Mismatched parentheses" := by
  intro h
  have hlen := congrArg (fun s : String => s.data.length) h
  simp only [String.data_append, List.length_append] at hlen
  rw [show ("Contains potentially dangerous keyword: " : String).data.length = 40 from rfl,
    show ("Mismatched parentheses" : String).data.length = 22 from rfl] at hlen
  omega

theorem mem_ite_singleton {c : Prop} [Decidable c] (x y : String) :
    (x ∈ (if c then [y] else [])) ↔ c ∧ x = y := by
  by_cases h : c <;> simp [h]

/-- A keyword issue appears exactly when the variant's keyword test flags
that keyword. -/
theorem validate_issues_kw_mem (dangerous_keywords : List String)
    (flagged : String → String → Bool) (sql_query k : String)
    (hk : k ∈ dangerous_keywords) :
    ("Contains potentially dangerous keyword: " ++ k)
        ∈ validate_issues dangerous_keywords flagged sql_query
      ↔ flagged (pyStrip (pyLower sql_query)) k = true := by
  unfold validate_issues
  simp only [List.mem_append, List.mem_map, List.mem_filter, mem_ite_singleton]
  constructor
  · rintro ((⟨k', ⟨_, hc⟩, he⟩ | ⟨_, he⟩) | ⟨_, he⟩)
    · obtain rfl : k' = k := string_append_left_cancel _ _ _ he
      exact hc
    · exact absurd he (contains_prefix_ne_select k)
    · exact absurd he (contains_prefix_ne_paren k)
  · intro hc
    exact Or.inl (Or.inl ⟨k, ⟨hk, hc⟩, rfl⟩)

/-- The non-`SELECT` issue appears exactly when the lowered stripped text
does not start with `select`. -/
theorem validate_issues_select_mem (dangerous_keywords : List String)
    (flagged : String → String → Bool) (sql_query : String) :
    ("Query must start with SELECT" : String)
        ∈ validate_issues dangerous_keywords flagged sql_query
      ↔ pyStartsWith (pyStrip (pyLower sql_query)) "select" = false := by
  unfold validate_issues
  simp only [List.mem_append, List.mem_map, List.mem_filter, mem_ite_singleton]
  constructor
  · rintro ((⟨k', _, he⟩ | ⟨hc, _⟩) | ⟨_, he⟩)
    · exact absurd he (contains_prefix_ne_select k')
    · simpa using hc
    · exact absurd he (by decide)
  · intro h
    exact Or.inl (Or.inr ⟨by simp [h], trivial⟩)

/-- The mismatched-parentheses issue appears exactly when `(` and `)`
counts differ. -/
theorem validate_issues_paren_mem (dangerous_keywords : List String)
    (flagged : String → String → Bool) (sql_query : String) :
    ("Mismatched parentheses" : String)
        ∈ validate_issues dangerous_keywords flagged sql_query
      ↔ pyCountChar sql_query '(' ≠ pyCountChar sql_query ')' := by
  unfold validate_issues
  simp only [List.mem_append, List.mem_map, List.mem_filter, mem_ite_singleton]
  constructor
  · rintro ((⟨k', _, he⟩ | ⟨_, he⟩) | ⟨hc, _⟩)
    · exact absurd he (contains_prefix_ne_paren k')
    · exact absurd he (by decide)
    · exact hc
  · intro h
    exact Or.inr ⟨h, trivial⟩

theorem mem_map_val_str (x : String) (l : List String) :
    Val.str x ∈ l.map Val.str ↔ x ∈ l := by
  simp [List.mem_map, Val.str.injEq]

/-- The issues field of `validate_sql_core`. -/
theorem issuesOf_validate_core (dangerous_keywords : List String)
    (flagged : String → String → Bool) (sql_query : String) :
    issuesOf (validate_sql_core dangerous_keywords flagged sql_query)
      = (validate_issues dangerous_keywords flagged sql_query).map Val.str := rfl

/-- The valid flag of `validate_sql_core` is the emptiness of its issues. -/
theorem valid_validate_core (dangerous_keywords : List String)
    (flagged : String → String → Bool) (sql_query : String) :
    getField (validate_sql_core dangerous_keywords flagged sql_query) "valid"
        = some (Val.bool true)
      ↔ issuesOf (validate_sql_core dangerous_keywords flagged sql_query) = [] := by
  rw [issuesOf_validate_core]
  show some (Val.bool (validate_issues dangerous_keywords flagged sql_query).isEmpty)
      = some (Val.bool true) ↔ _
  simp [List.isEmpty_iff, List.map_eq_nil_iff]

/-- Counterexample to claim C2: the mcp_tools.py variant matches keywords
as naive substrings, so `"SELECT * FROM update_at"` — which contains no
dangerous keyword as a whole word — is flagged for `update` and reported
invalid, where the claim requires `valid=true` with no issues. -/
theorem validate_sql_substring_counterexample :
    MCPTools.validate_sql "TriAI_Main" "SELECT * FROM update_at"
      = Val.obj [("valid", Val.bool false),
                 ("issues", Val.arr [Val.str "Contains potentially dangerous keyword: update"]),
                 ("query", Val.str "SELECT * FROM update_at")] := rfl

/-- Amended claim C2: both variants return `⦃valid, issues, query⦄` without
executing anything, where `valid` is true exactly when `issues` is empty,
the non-`SELECT` and parenthesis checks are as claimed, and the two
scenario examples hold; but the keyword check differs per variant: the
mcp_tools.py variant flags each of drop, delete, update, insert, truncate,
alter (`create` is absent) occurring as a naive substring of the lowered
stripped text, while the mcp_tools_pg.py variant flags each of the seven
keywords including create occurring space-delimited in the space-padded
text or as the leading token. -/
theorem validate_sql_spec (database_name sql_query : String) :
    (∀ keyword ∈ (["drop", "delete", "update", "insert", "truncate", "alter"] : List String),
      Val.str ("Contains potentially dangerous keyword: " ++ keyword)
          ∈ issuesOf (MCPTools.validate_sql database_name sql_query)
        ↔ pyContains (pyStrip (pyLower sql_query)) keyword = true)
    ∧ (Val.str "Query must start with SELECT"
          ∈ issuesOf (MCPTools.validate_sql database_name sql_query)
        ↔ pyStartsWith (pyStrip (pyLower sql_query)) "select" = false)
    ∧ (Val.str "Mismatched parentheses"
          ∈ issuesOf (MCPTools.validate_sql database_name sql_query)
        ↔ pyCountChar sql_query '(' ≠ pyCountChar sql_query ')')
    ∧ (getField (MCPTools.validate_sql database_name sql_query) "valid" = some (Val.bool true)
        ↔ issuesOf (MCPTools.validate_sql database_name sql_query) = [])
    ∧ (∀ keyword ∈
        (["drop", "delete", "update", "insert", "truncate", "alter", "create"] : List String),
      Val.str ("Contains potentially dangerous keyword: " ++ keyword)
          ∈ issuesOf (MCPToolsPG.validate_sql database_name sql_query)
        ↔ (pyContains (" " ++ pyStrip (pyLower sql_query) ++ " ") (" " ++ keyword ++ " ")
            || pyStartsWith (pyStrip (pyLower sql_query)) (keyword ++ " ")) = true)
    ∧ (Val.str "Query must start with SELECT"
          ∈ issuesOf (MCPToolsPG.validate_sql database_name sql_query)
        ↔ pyStartsWith (pyStrip (pyLower sql_query)) "select" = false)
    ∧ (Val.str "Mismatched parentheses"
          ∈ issuesOf (MCPToolsPG.validate_sql database_name sql_query)
        ↔ pyCountChar sql_query '(' ≠ pyCountChar sql_query ')')
    ∧ (getField (MCPToolsPG.validate_sql database_name sql_query) "valid" = some (Val.bool true)
        ↔ issuesOf (MCPToolsPG.validate_sql database_name sql_query) = [])
    ∧ MCPTools.validate_sql database_name "DROP TABLE ai_agents"
        = Val.obj [("valid", Val.bool false),
                   ("issues", Val.arr [Val.str "Contains potentially dangerous keyword: drop",
                                       Val.str "Query must start with SELECT"]),
                   ("query", Val.str "DROP TABLE ai_agents")]
    ∧ MCPTools.validate_sql database_name "SELECT * FROM ai_agents"
        = Val.obj [("valid", Val.bool true), ("issues", Val.arr []),
                   ("query", Val.str "SELECT * FROM ai_agents")]
    ∧ MCPToolsPG.validate_sql database_name "DROP TABLE ai_agents"
        = Val.obj [("valid", Val.bool false),
                   ("issues", Val.arr [Val.str "Contains potentially dangerous keyword: drop",
                                       Val.str "Query must start with SELECT"]),
                   ("query", Val.str "DROP TABLE ai_agents")]
    ∧ MCPToolsPG.validate_sql database_name "SELECT * FROM ai_agents"
        = Val.obj [("valid", Val.bool true), ("issues", Val.arr []),
                   ("query", Val.str "SELECT * FROM ai_agents")] := by
  refine ⟨?_, ?_, ?_, ?_, ?_, ?_, ?_, ?_, rfl, rfl, rfl, rfl⟩
  · intro keyword hkw
    rw [MCPTools.validate_sql, issuesOf_validate_core, mem_map_val_str]
    exact validate_issues_kw_mem _ _ sql_query keyword hkw
  · rw [MCPTools.validate_sql, issuesOf_validate_core, mem_map_val_str]
    exact validate_issues_select_mem _ _ sql_query
  · rw [MCPTools.validate_sql, issuesOf_validate_core, mem_map_val_str]
    exact validate_issues_paren_mem _ _ sql_query
  · rw [MCPTools.validate_sql]
    exact valid_validate_core _ _ sql_query
  · intro keyword hkw
    rw [MCPToolsPG.validate_sql, issuesOf_validate_core, mem_map_val_str]
    exact validate_issues_kw_mem _ _ sql_query keyword hkw
  · rw [MCPToolsPG.validate_sql, issuesOf_validate_core, mem_map_val_str]
    exact validate_issues_select_mem _ _ sql_query
  · rw [MCPToolsPG.validate_sql, issuesOf_validate_core, mem_map_val_str]
    exact validate_issues_paren_mem _ _ sql_query
  · rw [MCPToolsPG.validate_sql]
    exact valid_validate_core _ _ sql_query

/-- Witness for the amended claim C2: the keyword characterisation applied
at `keyword = "update"` on `"SELECT * FROM update_at"` (flagged by the
substring variant, not flagged by the space-delimited variant). -/
theorem validate_sql_spec_witness :
    (Val.str "Contains potentially dangerous keyword: update"
        ∈ issuesOf (MCPTools.validate_sql "TriAI_Main" "SELECT * FROM update_at")
      ↔ pyContains (pyStrip (pyLower "SELECT * FROM update_at")) "update" = true)
    ∧ (Val.str "Contains potentially dangerous keyword: update"
        ∈ issuesOf (MCPToolsPG.validate_sql "TriAI_Main" "SELECT * FROM update_at")
      ↔ (pyContains (" " ++ pyStrip (pyLower "SELECT * FROM update_at") ++ " ") " update "
          || pyStartsWith (pyStrip (pyLower "SELECT * FROM update_at")) "update ") = true) :=
  ⟨(validate_sql_spec "TriAI_Main" "SELECT * FROM update_at").1 "update" (by decide),
   (validate_sql_spec "TriAI_Main" "SELECT * FROM update_at").2.2.2.2.1 "update" (by decide)⟩

/-! ### The mock backend's state and ad hoc SQL interpreter
(src/mock_datalink.py), needed by claim C3

Log entries, `time.sleep` and console printing do not affect table state
and are modelled separately (see the ring-buffer section). Timestamps
(`datetime.now()`) and `random.randint` results are inputs `now` and
`rand`. `_convert_datetime_for_json` stringifies datetime objects; here
timestamps are already opaque `Val`s, so it is the identity. -/

/-- Python `s.strip("'\"")`: drop quote characters from both ends. -/
def pyStripQuotes (s : String) : String :=
  String.mk ((s.data.dropWhile (fun c => c = '\'' || c = '"')).rdropWhile
    (fun c => c = '\'' || c = '"'))

/-- Python `int(s)`: optional sign and decimal digits after stripping
whitespace; anything else raises (`none`). -/
def pyToInt (s : String) : Option Int :=
  let t := (pyStrip s).data
  let signed : Int × List Char :=
    match t with
    | '-' :: rest => (-1, rest)
    | '+' :: rest => (1, rest)
    | _ => (1, t)
  if signed.2 ≠ [] ∧ signed.2.all Char.isDigit then
    some (signed.1 * (signed.2.foldl (fun n c => n * 10 + (c.toNat - '0'.toNat)) 0 : Nat))
  else none

/-- Python `l[:n]`: a nonnegative bound takes a prefix, a negative bound
drops that many elements from the end. -/
def pySliceTo {α : Type} (l : List α) (n : Int) : List α :=
  if 0 ≤ n then l.take n.toNat else l.take (l.length - n.natAbs)

/-- Fuelled core of Python `s.split(sep)` for non-empty `sep`. -/
def pySplitOnAux (sep : List Char) : List Char → Nat → List Char → List (List Char)
  | acc, 0, s => [acc.reverse ++ s]
  | acc, fuel + 1, s =>
    if sep.isPrefixOf s then
      acc.reverse :: pySplitOnAux sep [] fuel (s.drop sep.length)
    else
      match s with
      | [] => [acc.reverse]
      | c :: t => pySplitOnAux sep (c :: acc) fuel t

/-- Python `s.split(sep)` (all occurrences, `sep` non-empty in every use
below). -/
def pySplitOn (s sep : String) : List String :=
  (pySplitOnAux sep.data [] s.data.length s.data).map String.mk

/-- The remainder after the first occurrence of `sub` (Python
`s[s.find(sub) + len(sub):]` when `sub` occurs). -/
def afterSub : Nat → List Char → List Char → Option (List Char)
  | 0, _, _ => none
  | fuel + 1, s, sub =>
    if sub.isPrefixOf s then some (s.drop sub.length)
    else
      match s with
      | [] => none
      | _ :: t => afterSub fuel t sub

/-- Python `re.findall(r"'([^']*)'", s)`: the contents of each quoted run,
scanning left to right, resuming after each closing quote. -/
def findQuotedAux : Nat → List Char → List String
  | 0, _ => []
  | fuel + 1, s =>
    match s with
    | [] => []
    | c :: t =>
      if c = '\'' then
        let content := t.takeWhile (fun d => d ≠ '\'')
        let rest := t.drop content.length
        match rest with
        | [] => []
        | _ :: after => String.mk content :: findQuotedAux fuel after
      else findQuotedAux fuel t

def findQuoted (s : String) : List String :=
  findQuotedAux s.data.length s.data

/-- One attempt of `re.search(r"values\s*\([^)]+\)", s)` at the current
position. -/
def matchValuesAt (s : List Char) : Option (List Char) :=
  if ("values".data).isPrefixOf s then
    let after := s.drop 6
    let ws := after.takeWhile isPyWs
    let after2 := after.drop ws.length
    match after2 with
    | '(' :: rest =>
      let content := rest.takeWhile (fun d => d ≠ ')')
      if content.length = 0 then none
      else if content.length < rest.length then
        some ((("values".data ++ ws) ++ ('(' :: content)) ++ [')'])
      else none
    | _ => none
  else none

/-- Python `re.search(r"values\s*\([^)]+\)", s)`: leftmost match, the
engine restarting one character on after a failed attempt. -/
def findValuesAux : Nat → List Char → Option (List Char)
  | 0, _ => none
  | fuel + 1, s =>
    match matchValuesAt s with
    | some g => some g
    | none =>
      match s with
      | [] => none
      | _ :: t => findValuesAux fuel t

def findValues (s : String) : Option String :=
  (findValuesAux s.data.length s.data).map String.mk

/-- One attempt of `re.findall(r"user_(?:from|to) = '([^']+)'", s)` at the
current position: the captured user and the remainder after the match. -/
def matchUserAt (s : List Char) : Option (String × List Char) :=
  let tryPat := fun (pat : List Char) =>
    if pat.isPrefixOf s then
      let rest := s.drop pat.length
      let content := rest.takeWhile (fun d => d ≠ '\'')
      if content.length = 0 then none
      else if content.length < rest.length then
        some (String.mk content, rest.drop (content.length + 1))
      else none
    else none
  match tryPat ("user_from = '".data) with
  | some r => some r
  | none => tryPat ("user_to = '".data)

def findUsersAux : Nat → List Char → List String
  | 0, _ => []
  | fuel + 1, s =>
    match matchUserAt s with
    | some (u, rest) => u :: findUsersAux fuel rest
    | none =>
      match s with
      | [] => []
      | _ :: t => findUsersAux fuel t

/-- Python `re.findall(r"user_(?:from|to) = '([^']+)'", s)`. -/
def findUsers (s : String) : List String :=
  findUsersAux s.data.length s.data

/-- Python `row.get(k, '')` where the mock's rows hold strings in these
columns (a non-string value would raise in the `.lower()` that follows). -/
def row_get_str (row : Row) (k : String) : String :=
  match lookupStr row k with
  | some (Val.str s) => s
  | _ => ""

/-- The sort key `x.get('Posted', datetime.min)`: `datetime.min` is the
least value, modelled as the empty string (timestamps are opaque ISO-like
strings, which compare lexicographically as datetimes do). -/
def posted_key (row : Row) : Val :=
  (lookupStr row "Posted").getD (Val.str "")

/-- Comparison of sort keys: string timestamps lexicographically, numbers
numerically; mixed-type comparisons raise in Python and are modelled as
accepting (never exercised by the seeded tables). -/
def val_le : Val → Val → Bool
  | Val.str a, Val.str b => decide (a ≤ b)
  | Val.num a, Val.num b => decide (a ≤ b)
  | _, _ => true

namespace MockDataLink

/-- The mutable mock tables of a `MockDataLink` instance
(`self.mock_tables` and the `sample_*` lists). The seed rows are initial
values of this state; the claims quantify over arbitrary states. -/
structure MockState : Type where
  agents : List Row
  messages : List Row
  memories : List Row
  query_history : List Row
  sample_members : List Row
  sample_accounts : List Row
  sample_loans : List Row
  sample_transactions : List Row
  sample_branches : List Row

/-- The conversation-history branch of `_filter_mock_data`: extract the two
user names with the regex and keep the messages between them,
case-insensitively. -/
def conversation_filter (filtered_data : List Row) (sql_lower : String) : List Row :=
  match findUsers sql_lower with
  | user1 :: user2 :: _ =>
    filtered_data.filter (fun row =>
      (pyLower (row_get_str row "User_From") = pyLower user1
        ∧ pyLower (row_get_str row "User_To") = pyLower user2)
      ∨ (pyLower (row_get_str row "User_From") = pyLower user2
        ∧ pyLower (row_get_str row "User_To") = pyLower user1))
  | _ => filtered_data

/-- Translation of `MockDataLink._filter_mock_data` (src/mock_datalink.py
lines 371-460): best-effort WHERE / ORDER BY / LIMIT emulation by substring
scanning. The `agent =` branch with an empty token list after the split
would raise an `IndexError` in the source; it is modelled as "no filter"
and is unreachable from the queries the tools build. -/
def filter_mock_data (data : List Row) (sql : String) : List Row :=
  let sql_lower := pyLower sql
  let filtered_data :=
    if pyContains sql_lower "where" then
      let fd := data
      let fd :=
        if pyContains sql_lower "user_from =" ∧ pyContains sql_lower "user_to ="
            ∧ pyContains sql_lower " or " then
          conversation_filter fd sql_lower
        else if pyContains sql_lower "state = 'ca'"
            ∨ pyContains sql_lower "state = \"ca\"" then
          fd.filter (fun row =>
            match lookupStr row "State" with
            | some (Val.str s) => decide (s = "CA")
            | _ => false)
        else if pyContains sql_lower "agent =" then
          match (pySplitOn sql_lower "agent =")[1]? with
          | some part =>
            match pySplitWs (pyStrip part) with
            | tok :: _ =>
              let agent_name := pyStripQuotes tok
              fd.filter (fun row =>
                pyLower (row_get_str row "Agent") = pyLower agent_name)
            | [] => fd
          | none => fd
        else if pyContains sql_lower "user_to =" then
          match afterSub sql_lower.data.length sql_lower.data ("user_to =".data) with
          | some restc =>
            match (pyStrip (String.mk restc)).data with
            | c :: rest =>
              if c = '\'' ∨ c = '"' then
                let content := rest.takeWhile (fun d => d ≠ c)
                if content.length < rest.length then
                  fd.filter (fun row =>
                    match lookupStr row "User_To" with
                    | some (Val.str s) => decide (s = String.mk content)
                    | _ => false)
                else fd
              else fd
            | [] => fd
          | none => fd
        else fd
      if pyContains sql_lower "user_read is null" then
        fd.filter (fun row =>
          match lookupStr row "User_Read" with
          | some Val.null => true
          | none => true
          | _ => false)
      else fd
    else data
  let filtered_data :=
    if pyContains sql_lower "order by" then
      match (pySplitOn sql_lower "order by")[1]? with
      | some part =>
        let order_part := pyStrip part
        if pyContains order_part "posted desc" then
          filtered_data.mergeSort (fun x y => val_le (posted_key y) (posted_key x))
        else if pyContains order_part "posted asc" ∨ pyContains order_part "posted" then
          filtered_data.mergeSort (fun x y => val_le (posted_key x) (posted_key y))
        else filtered_data
      | none => filtered_data
    else filtered_data
  if pyContains sql_lower "limit" then
    match (pySplitOn sql_lower "limit")[1]? with
    | some part =>
      match pySplitWs (pyStrip part) with
      | tok :: _ =>
        match pyToInt tok with
        | some limit_num => pySliceTo filtered_data limit_num
        | none => filtered_data
      | [] => filtered_data
    | none => filtered_data
  else filtered_data

/-- Translation of `MockDataLink.sql_get` (src/mock_datalink.py lines
313-370): dispatch on substring containment of known table names, then
best-effort filtering; unknown queries return canned sample rows. -/
def sql_get (st : MockState) (now : Val) (rand : Int) (sql : String) : List Row :=
  let sql_lower := pyStrip (pyLower sql)
  if pyContains sql_lower "ai_agents" then filter_mock_data st.agents sql
  else if pyContains sql_lower "ai_messages" then filter_mock_data st.messages sql
  else if pyContains sql_lower "ai_memories" then filter_mock_data st.memories sql
  else if pyContains sql_lower "ai_query_history" then filter_mock_data st.query_history sql
  else if pyContains sql_lower "members" then filter_mock_data st.sample_members sql
  else if pyContains sql_lower "accounts" then filter_mock_data st.sample_accounts sql
  else if pyContains sql_lower "loans" then filter_mock_data st.sample_loans sql
  else if pyContains sql_lower "transactions" then filter_mock_data st.sample_transactions sql
  else if pyContains sql_lower "branches" then filter_mock_data st.sample_branches sql
  else if pyContains sql_lower "select 1" then [[("result", Val.num 1)]]
  else if pyContains sql_lower "count(*)" then [[("cnt", Val.num rand)]]
  else
    [[("column1", Val.str "Sample Value 1"), ("column2", Val.num 123), ("column3", now)],
     [("column1", Val.str "Sample Value 2"), ("column2", Val.num 456), ("column3", now)]]

/-- Translation of `MockDataLink._simulate_insert` (src/mock_datalink.py
lines 538-583): an `INSERT` into `AI_Messages` parses the `VALUES` group
and appends a message row (a hardcoded fallback when fewer than three
quoted values are found, and nothing when the regex finds no `VALUES`
group); an `INSERT` into `AI_Memories` appends a hardcoded mock memory. -/
def simulate_insert (st : MockState) (now : Val) (sql : String) : MockState :=
  let sql_lower := pyLower sql
  if pyContains sql_lower "ai_messages" then
    match findValues sql_lower with
    | some values_str =>
      match findQuoted values_str with
      | v0 :: v1 :: v2 :: _ =>
        { st with messages := st.messages ++
            [[("Message_ID", Val.num (st.messages.length + 1)), ("Posted", now),
              ("User_From", Val.str v0), ("User_To", Val.str v1),
              ("Message", Val.str v2), ("User_Read", Val.null)]] }
      | _ =>
        { st with messages := st.messages ++
            [[("Message_ID", Val.num (st.messages.length + 1)), ("Posted", now),
              ("User_From", Val.str "mock_user"), ("User_To", Val.str "mock_agent"),
              ("Message", Val.str "Mock inserted message"), ("User_Read", Val.null)]] }
    | none => st
  else if pyContains sql_lower "ai_memories" then
    { st with memories := st.memories ++
        [[("Memory_ID", Val.num (st.memories.length + 1)),
          ("Agent", Val.str "mock_agent"), ("First_Posted", now),
          ("Times_Recalled", Val.num 0), ("Last_Recalled", Val.null),
          ("Memory_Label", Val.str "Mock Memory"),
          ("Memory", Val.str "Mock memory content"),
          ("Related_To", Val.str "mock test"), ("Purge_After", Val.null)]] }
  else st

/-- Translation of `MockDataLink.sql_run` (src/mock_datalink.py lines
496-536): only `INSERT` statements change table state; `UPDATE`, `DELETE`,
`CREATE`, `DROP` and everything else merely log ("simulated"). The
`time.sleep` is dropped. -/
def sql_run (st : MockState) (now : Val) (sql : String) : MockState :=
  let sql_lower := pyStrip (pyLower sql)
  if pyStartsWith sql_lower "insert" then simulate_insert st now sql
  else if pyStartsWith sql_lower "update" then st
  else if pyStartsWith sql_lower "delete" then st
  else st

/-- Translation of `MockDataLink.sql_insert` (src/mock_datalink.py lines
593-637), `run = True` path with `data` already a list of dicts: the
simulated bulk insert appends rows only for `ai_messages` — any other
table, `AI_Memories` included, is only logged and the rows are discarded. -/
def sql_insert (st : MockState) (now : Val) (table_name : String)
    (data : List Row) : MockState :=
  if data.isEmpty then st
  else if pyLower table_name = "ai_messages" then
    let new_messages := data.foldl (fun msgs item =>
      msgs ++ [[("Message_ID", Val.num (msgs.length + 1)),
                ("Posted", (lookupStr item "posted").getD now),
                ("User_From", (lookupStr item "user_from").getD (Val.str "unknown")),
                ("User_To", (lookupStr item "user_to").getD (Val.str "unknown")),
                ("Message", (lookupStr item "message").getD (Val.str "")),
                ("User_Read", (lookupStr item "user_read").getD Val.null)]]) st.messages
    { st with messages := new_messages }
  else st

end MockDataLink

namespace MCPTools

/-- The recall-count `UPDATE` statement `retrieve_memories` issues per
returned row, with the source's triple-quoted layout. -/
def update_recall_query (memory : Row) : String :=
  "\n                UPDATE AI_Memories \n                SET Times_Recalled = Times_Recalled + 1, Last_Recalled = GETDATE()\n                WHERE Memory_ID = "
    ++ pyStr ((lookupStr memory "Memory_ID").getD (Val.num 0))
    ++ "\n                "

/-- The tag search query `retrieve_memories` builds, with the source's
triple-quoted layout: one `LIKE` per whitespace-separated tag. -/
def retrieve_query (agent_name tag0 : String) (rest : List String) (lim : Int) : String :=
  let query := "\n            SELECT * FROM AI_Memories \n            WHERE Agent = '"
    ++ agent_name ++ "' \n            AND (Related_To LIKE '%" ++ tag0 ++ "%'\n            "
  let query := rest.foldl (fun q tag => q ++ " OR Related_To LIKE '%" ++ tag ++ "%'") query
  query ++ ") LIMIT " ++ toString lim

/-- Translation of `MCPToolProvider.store_memory` (src/mcp_tools.py lines
411-437) against the mock backend: build the memory row, bulk-insert it
into `AI_Memories`, then derive `memory_id` from a full table read. -/
def store_memory (st : MockDataLink.MockState) (now : Val) (rand : Int)
    (agent_name memory_label memory_content related_to_tags : String)
    (purge_after : Val) : MockDataLink.MockState × Val :=
  let memory_data : List Row :=
    [[("Agent", Val.str agent_name), ("Memory_Label", Val.str memory_label),
      ("Memory", Val.str memory_content), ("Related_To", Val.str related_to_tags),
      ("First_Posted", now), ("Times_Recalled", Val.num 0),
      ("Purge_After", purge_after)]]
  let st' := MockDataLink.sql_insert st now "AI_Memories" memory_data
  let memory_id := (MockDataLink.sql_get st' now rand "SELECT * FROM AI_Memories").length + 1
  (st', .obj [("memory_id", Val.num memory_id), ("agent", Val.str agent_name),
              ("stored", Val.bool true)])

/-- Translation of `MCPToolProvider.retrieve_memories` (src/mcp_tools.py
lines 439-470) against the mock backend: split the tags (an empty tag
string raises `IndexError` at `tags[0]`, caught into an error row), query,
then issue one recall-count `UPDATE` per returned row. -/
def retrieve_memories (st : MockDataLink.MockState) (now : Val) (rand : Int)
    (agent_name related_to_tags : String) (lim : Int) :
    MockDataLink.MockState × List Row :=
  match pySplitWs related_to_tags with
  | [] => (st, [[("error", Val.str "list index out of range")]])
  | tag0 :: rest =>
    let memories := MockDataLink.sql_get st now rand (retrieve_query agent_name tag0 rest lim)
    (memories.foldl
      (fun s memory => MockDataLink.sql_run s now (update_recall_query memory)) st,
     memories)

end MCPTools

/-! ### Claim C3: the mock backend drops stored memories and recall-count
updates -/

theorem isPrefixOf_false_of_head_ne (a b : Char) (hab : a ≠ b) (pt l Y : List Char)
    (hl : l <+: b :: Y) : (a :: pt).isPrefixOf l = false := by
  match l with
  | [] => rfl
  | c :: rest =>
    have hc : c = b := (List.cons_prefix_cons.mp hl).1
    subst hc
    simp only [List.isPrefixOf, Bool.and_eq_false_iff]
    left
    simpa using hab

/-- The recall-count `UPDATE` text never starts with `insert` after
lowering and stripping, whatever the interpolated `Memory_ID` prints as. -/
theorem update_recall_query_not_insert (memory : Row) :
    pyStartsWith (pyStrip (pyLower (MCPTools.update_recall_query memory))) "insert"
      = false := by
  unfold MCPTools.update_recall_query pyStartsWith pyStrip pyLower
  simp only [String.data_append, List.map_append, List.append_assoc]
  rw [show ("\n                UPDATE AI_Memories \n                SET Times_Recalled = Times_Recalled + 1, Last_Recalled = GETDATE()\n                WHERE Memory_ID = " : String).data.map Char.toLower
      = ("\n                update ai_memories \n                set times_recalled = times_recalled + 1, last_recalled = getdate()\n                where memory_id = " : String).data from by decide]
  rw [List.dropWhile_append]
  rw [show (("\n                update ai_memories \n                set times_recalled = times_recalled + 1, last_recalled = getdate()\n                where memory_id = " : String).data.dropWhile isPyWs)
      = 'u' :: ("pdate ai_memories \n                set times_recalled = times_recalled + 1, last_recalled = getdate()\n                where memory_id = " : String).data from by decide]
  simp only [List.isEmpty_cons, Bool.false_eq_true, if_false, List.cons_append,
    List.append_assoc]
  exact isPrefixOf_false_of_head_ne 'i' 'u' (by decide) _ _ _
    ( List.rdropWhile_prefix _ _)

/-- A statement that does not start with `insert` leaves the mock tables
untouched: `_simulate_update` and `_simulate_delete` only log. -/
theorem sql_run_not_insert (st : MockDataLink.MockState) (now : Val) (sql : String)
    (h : pyStartsWith (pyStrip (pyLower sql)) "insert" = false) :
    MockDataLink.sql_run st now sql = st := by
  unfold MockDataLink.sql_run
  rw [if_neg (by rw [h]; simp)]
  simp only [ite_self]

/-- The mock bulk insert into `AI_Memories` discards its rows: only the
`ai_messages` branch appends anything. -/
theorem sql_insert_ai_memories (st : MockDataLink.MockState) (now : Val)
    (data : List Row) :
    MockDataLink.sql_insert st now "AI_Memories" data = st := by
  unfold MockDataLink.sql_insert
  by_cases hd : data.isEmpty
  · rw [if_pos hd]
  · rw [if_neg hd, if_neg (by decide)]

/-- Claim C3 is violated by the code: evaluating the scenario on the mock
backend, `store_memory` followed by `retrieve_memories` leaves the entire
mock state — `AI_Memories` included — exactly as it was, for every initial
state, labels, tags and limit: the stored memory is never persisted (the
mock bulk insert drops non-message rows) and no `times_recalled` counter
ever changes (the recall `UPDATE` is simulated as a no-op). -/
theorem store_then_retrieve_state_unchanged
    (st : MockDataLink.MockState) (now purge_after : Val) (rand : Int)
    (agent_name memory_label memory_content related_to_tags retrieve_tags : String)
    (lim : Int) :
    (MCPTools.store_memory st now rand agent_name memory_label memory_content
      related_to_tags purge_after).1 = st
    ∧ (MCPTools.retrieve_memories
        (MCPTools.store_memory st now rand agent_name memory_label memory_content
          related_to_tags purge_after).1 now rand agent_name retrieve_tags lim).1 = st := by
  have hstore : (MCPTools.store_memory st now rand agent_name memory_label memory_content
      related_to_tags purge_after).1 = st := by
    simp only [MCPTools.store_memory]
    exact sql_insert_ai_memories st now _
  refine ⟨hstore, ?_⟩
  rw [hstore]
  have hfold : ∀ (l : List Row) (s : MockDataLink.MockState),
      l.foldl (fun s memory =>
        MockDataLink.sql_run s now (MCPTools.update_recall_query memory)) s = s := by
    intro l
    induction l with
    | nil => intro s; rfl
    | cons m rest ih =>
      intro s
      rw [List.foldl_cons, sql_run_not_insert _ _ _ (update_recall_query_not_insert m)]
      exact ih s
  unfold MCPTools.retrieve_memories
  cases hsplit : pySplitWs retrieve_tags with
  | nil => simp only [hsplit]
  | cons t0 ts =>
    simp only [hsplit]
    exact hfold _ st

end TriAI
